import Mathlib

/-!
Verification development for the dns-noise repository: a shallow embedding of
the query-pacing controller (`calcSleepPeriod`), the resolver-set construction
(`dnsServerConfig`, `dnsStatedClientConfig`, `dnsDefaultClientConfig`,
`dnsFormatIP`), the query dispatcher (`dnsLookup`, `dnsQuery`), the pihole
activity filter (`piholeFilterNoise`) and the domain sampler
(`dbGetRandomDomain`), together with theorems about them.

Conventions of the embedding:
* Go `time.Duration` / `int64` values are modelled as `Int` (nanoseconds);
  Go integer division truncates toward zero, which is `Int.tdiv`.
* Go runtime panics (integer division by zero, `rand.Intn`/`rand.Int63n`
  with a non-positive bound, out-of-range slice indexing) are modelled as
  `Option.none` or an explicit `fatal` constructor.
* Randomness is passed in: a call to `rand.Int63n(b)` becomes a parameter
  `r` constrained by `0 ≤ r < b` in the theorems.
* External effects (the pihole HTTP fetch, the DNS exchange, the database)
  become explicit inputs describing the observed outcome.
-/

namespace DnsNoise

/-! ### Character and string helpers
Executable stand-ins for the Go standard-library string operations the code
uses (`strings.Split`, `strings.HasPrefix`, decimal formatting), written with
structural recursion so that concrete evaluations reduce in the kernel. -/

def digitVal? (c : Char) : Option Nat :=
  if '0' ≤ c ∧ c ≤ '9' then some (c.toNat - 48) else none

def hexVal? (c : Char) : Option Nat :=
  if '0' ≤ c ∧ c ≤ '9' then some (c.toNat - 48)
  else if 'a' ≤ c ∧ c ≤ 'f' then some (c.toNat - 87)
  else if 'A' ≤ c ∧ c ≤ 'F' then some (c.toNat - 55)
  else none

def natDigitChar (n : Nat) : Char := Char.ofNat (48 + n)

def hexDigitChar (n : Nat) : Char :=
  if n < 10 then Char.ofNat (48 + n) else Char.ofNat (87 + n)

/-- If `sep` is an initial run of `cs`, the remainder of `cs` after it. -/
def dropPre? : List Char → List Char → Option (List Char)
  | [], cs => some cs
  | _ :: _, [] => none
  | s :: ss, c :: cs => if s = c then dropPre? ss cs else none

/-- Greedy left-to-right split of `cs` on the non-empty separator
`s0 :: srest`, as Go's `strings.Split`; `fuel` bounds the recursion and is
instantiated with the length of the input. -/
def splitListGo (s0 : Char) (srest : List Char) : Nat → List Char → List (List Char)
  | _, [] => [[]]
  | 0, cs => [cs]
  | fuel + 1, c :: cs =>
    match dropPre? (s0 :: srest) (c :: cs) with
    | some rest => [] :: splitListGo s0 srest fuel rest
    | none =>
      match splitListGo s0 srest fuel cs with
      | [] => [[c]]
      | h :: t => (c :: h) :: t

/-- Model of Go's `strings.Split` for a non-empty separator. -/
def strSplitOn (s sep : String) : List String :=
  match sep.toList with
  | [] => [s]
  | s0 :: srest => (splitListGo s0 srest s.toList.length s.toList).map (fun l => String.mk l)

/-- Decimal digits of `n` (most significant first); `fuel` bounds the
recursion and is instantiated with `n` itself. -/
def natReprAux : Nat → Nat → List Char
  | 0, _ => []
  | _, 0 => []
  | fuel + 1, n => natReprAux fuel (n / 10) ++ [natDigitChar (n % 10)]

/-- Decimal rendering of a natural number, as Go's integer formatting. -/
def natRepr (n : Nat) : String :=
  if n = 0 then ("0") else String.mk (natReprAux n n)

/-- Join with a separator, as Go builds colon-separated strings. -/
def joinSep (sep : String) : List String → String
  | [] => ("")
  | [x] => x
  | x :: xs => x ++ sep ++ joinSep sep xs

def digitsVal? : List Char → Nat → Option Nat
  | [], acc => some acc
  | c :: cs, acc =>
    match digitVal? c with
    | some d => digitsVal? cs (acc * 10 + d)
    | none => none

def hexDigitsVal? : List Char → Nat → Option Nat
  | [], acc => some acc
  | c :: cs, acc =>
    match hexVal? c with
    | some d => hexDigitsVal? cs (acc * 16 + d)
    | none => none

/-! ### IP addresses
Model of the slice of Go's `net` package that `dns.go` relies on:
`net.ParseIP`, `IP.To4` and `IP.String`. An address is either four IPv4
octets or eight 16-bit IPv6 groups. -/

inductive IP where
  | v4 (a b c d : Nat)
  | v6 (gs : List Nat)
deriving DecidableEq

/-- One dotted-quad field: 1-3 decimal digits, value at most 255, no leading
zero (as Go's `net.ParseIP` rejects since 1.17). -/
def parseOctet? (s : String) : Option Nat :=
  let cs := s.toList
  if cs.length = 0 || cs.length > 3 then none
  else if cs.length > 1 && cs.head? == some '0' then none
  else
    match digitsVal? cs 0 with
    | some n => if n ≤ 255 then some n else none
    | none => none

def parseIPv4? (s : String) : Option IP :=
  match strSplitOn s (".") with
  | [a, b, c, d] =>
    match parseOctet? a, parseOctet? b, parseOctet? c, parseOctet? d with
    | some a, some b, some c, some d => some (IP.v4 a b c d)
    | _, _, _, _ => none
  | _ => none

/-- One IPv6 group: 1-4 hex digits. -/
def parseHexGroup? (s : String) : Option Nat :=
  let cs := s.toList
  if cs.length = 0 || cs.length > 4 then none
  else hexDigitsVal? cs 0

/-- Parse a `:`-separated list of IPv6 groups; when `allowV4` is set the final
group may be an embedded dotted quad, contributing two 16-bit groups. -/
def parseGroupsGo (allowV4 : Bool) : List String → Option (List Nat)
  | [] => some []
  | [last] =>
    if allowV4 && last.toList.any (fun c => c == '.') then
      match parseIPv4? last with
      | some (IP.v4 a b c d) => some [a * 256 + b, c * 256 + d]
      | _ => none
    else
      match parseHexGroup? last with
      | some v => some [v]
      | none => none
  | g :: rest =>
    match parseHexGroup? g, parseGroupsGo allowV4 rest with
    | some v, some vs => some (v :: vs)
    | _, _ => none

def parseGroups? (piece : String) (allowV4 : Bool) : Option (List Nat) :=
  if piece = ("") then some []
  else parseGroupsGo allowV4 (strSplitOn piece (":"))

/-- IPv6 textual form: eight groups, or fewer with one `::` standing for at
least one zero group (so at most seven written groups). -/
def parseIPv6? (s : String) : Option IP :=
  match strSplitOn s ("::") with
  | [whole] =>
    match parseGroups? whole true with
    | some gs => if gs.length = 8 then some (IP.v6 gs) else none
    | none => none
  | [l, r] =>
    match parseGroups? l false, parseGroups? r true with
    | some gl, some gr =>
      if gl.length + gr.length ≤ 7 then
        some (IP.v6 (gl ++ List.replicate (8 - (gl.length + gr.length)) 0 ++ gr))
      else none
    | _, _ => none
  | _ => none

/-- Model of `net.ParseIP`: the first of `.`/`:` to occur decides the format. -/
def parseIP (s : String) : Option IP :=
  match s.toList.find? (fun c => c == '.' || c == ':') with
  | some c => if c == '.' then parseIPv4? s else parseIPv6? s
  | none => none

/-- Model of `net.IP.To4`: the four octets when the address is IPv4 or an
IPv4-mapped IPv6 address (`::ffff:a.b.c.d`), otherwise `none`. -/
def IP.to4? : IP → Option (Nat × Nat × Nat × Nat)
  | IP.v4 a b c d => some (a, b, c, d)
  | IP.v6 gs =>
    match gs with
    | [0, 0, 0, 0, 0, 65535, hi, lo] => some (hi / 256, hi % 256, lo / 256, lo % 256)
    | _ => none

def v4String (a b c d : Nat) : String :=
  natRepr a ++ (".") ++ natRepr b ++ (".") ++ natRepr c ++ (".") ++ natRepr d

/-- Lowercase hex rendering of a 16-bit group without leading zeros. -/
def hexGroupString (n : Nat) : String :=
  let ds := [n / 4096 % 16, n / 256 % 16, n / 16 % 16, n % 16]
  match ds.dropWhile (fun d => d == 0) with
  | [] => String.mk [natDigitChar 0]
  | l => String.mk (l.map hexDigitChar)

def zeroRunLen : List Nat → Nat
  | 0 :: rest => zeroRunLen rest + 1
  | _ => 0

/-- Scan for the leftmost longest run (length at least 2) of zero groups, as
`net.IP.String` does before inserting `::`. -/
def bestZeroRunGo : List Nat → Nat → Option (Nat × Nat) → Option (Nat × Nat)
  | [], _, best => best
  | g :: rest, i, best =>
    let len := zeroRunLen (g :: rest)
    let best :=
      match best with
      | none => if len ≥ 2 then some (i, len) else none
      | some (s, bl) => if len ≥ 2 ∧ bl < len then some (i, len) else some (s, bl)
    bestZeroRunGo rest (i + 1) best

def bestZeroRun (gs : List Nat) : Option (Nat × Nat) :=
  bestZeroRunGo gs 0 none

def ipv6String (gs : List Nat) : String :=
  match bestZeroRun gs with
  | none => joinSep (":") (gs.map hexGroupString)
  | some (s, l) =>
    joinSep (":") ((gs.take s).map hexGroupString) ++ ("::") ++
      joinSep (":") ((gs.drop (s + l)).map hexGroupString)

/-- Model of `net.IP.String`: dotted quad when `To4` applies, otherwise the
RFC 5952 compressed IPv6 form. -/
def IP.render : IP → String
  | ip =>
    match ip.to4? with
    | some (a, b, c, d) => v4String a b c d
    | none =>
      match ip with
      | IP.v6 gs => ipv6String gs
      | IP.v4 a b c d => v4String a b c d

/-! ### Resolver set construction (src/dns.go) -/

/-- A nameserver descriptor from the configuration (config.go `NameServer`);
`port = 0` stands for the unset port. -/
structure NameServer where
  ip : String
  zone : String
  port : Nat
deriving DecidableEq

/-- dns.go lines 105-130, `dnsFormatIP`: split a `%zone` suffix off the
address (an embedded zone overrides the `zone` argument), parse the remaining
address, and render it — bracketed for IPv6, with the zone appended inside
the brackets when one is present. -/
def dnsFormatIP (ipaddr zone : String) : Except Unit String :=
  let components := strSplitOn ipaddr ("%")
  let zone :=
    match components[1]? with
    | some z => z
    | none => zone
  match parseIP (components.headD ("")) with
  | none => Except.error ()
  | some ip =>
    let formattedIP := IP.render ip
    if (IP.to4? ip).isSome then Except.ok formattedIP
    else if zone = ("") then Except.ok (("[") ++ formattedIP ++ ("]"))
    else Except.ok (("[") ++ formattedIP ++ ("%") ++ zone ++ ("]"))

/-- dns.go lines 40-69, `dnsStatedClientConfig`: `none` stands for the Go nil
slice. Entries whose address does not format are skipped (`continue`); a port
of 0 defaults to 53; an empty surviving set is an error. -/
def dnsStatedClientConfig (ns : Option (List NameServer)) : Except Unit (List String) :=
  match ns with
  | none => Except.error ()
  | some list =>
    let servers := list.filterMap (fun nsentry =>
      match dnsFormatIP nsentry.ip nsentry.zone with
      | Except.error _ => none
      | Except.ok ip =>
        some (ip ++ (":") ++ natRepr (if nsentry.port = 0 then 53 else nsentry.port)))
    if servers.isEmpty then Except.error () else Except.ok servers

/-- What `dns.ClientConfigFromFile` produced from /etc/resolv.conf: the
nameserver strings and the port string. -/
structure DnsClientConfig where
  servers : List String
  port : String
deriving DecidableEq

/-- dns.go lines 75-97, `dnsDefaultClientConfig`: fails only when reading
/etc/resolv.conf fails; entries that do not format are skipped, and the
surviving set is returned without error even when it is empty. -/
def dnsDefaultClientConfig (file : Except Unit DnsClientConfig) : Except Unit (List String) :=
  match file with
  | Except.error _ => Except.error ()
  | Except.ok conf =>
    Except.ok (conf.servers.filterMap (fun nsentry =>
      match dnsFormatIP nsentry ("") with
      | Except.error _ => none
      | Except.ok ip => some (ip ++ (":") ++ conf.port)))

inductive ServerSetup where
  | fatal
  | ok (servers : List String)
deriving DecidableEq

/-- dns.go lines 23-35, `dnsServerConfig`: explicit configuration first, then
the system default; `log.Fatal` (modelled as `fatal`) only when both error. -/
def dnsServerConfig (ns : Option (List NameServer)) (file : Except Unit DnsClientConfig) :
    ServerSetup :=
  match dnsStatedClientConfig ns with
  | Except.ok servers => ServerSetup.ok servers
  | Except.error _ =>
    match dnsDefaultClientConfig file with
    | Except.ok servers => ServerSetup.ok servers
    | Except.error _ => ServerSetup.fatal

/-! ### Query dispatcher (src/dns.go lines 135-203) -/

/-- What one `dns.Exchange` against a given server did: a transport-level
error, or a completed exchange carrying a response code. -/
inductive ExchangeResult where
  | transportErr
  | response (rcode : Nat)
deriving DecidableEq

/-- The dispatch outcome in the spec's vocabulary (`QueryOutcome`): rcode 0 is
success, anything else a server-reported error; both are attributed to the
resolver that answered. -/
inductive QueryOutcome where
  | transportFailure
  | serverError (server : String) (rcode : Nat)
  | answered (server : String) (rcode : Nat)
deriving DecidableEq

/-- dns.go lines 166-203, `dnsQuery`: a transport error is returned as an
error; every completed exchange — whatever its response code — is returned
without error (response codes such as NXDOMAIN are data, not failures). -/
def dnsQuery (exchange : String → ExchangeResult) (d : String) : Except Unit Nat :=
  match exchange d with
  | ExchangeResult.transportErr => Except.error ()
  | ExchangeResult.response rcode => Except.ok rcode

/-- dns.go lines 150-158, the failover loop of `dnsLookup`: servers are tried
in order; an error from `dnsQuery` advances to the next server (`continue`),
any completed exchange breaks the loop. -/
def dnsLookup (exchange : String → ExchangeResult) : List String → QueryOutcome
  | [] => QueryOutcome.transportFailure
  | d :: rest =>
    match dnsQuery exchange d with
    | Except.error _ => dnsLookup exchange rest
    | Except.ok rcode =>
      if rcode = 0 then QueryOutcome.answered d rcode else QueryOutcome.serverError d rcode

/-- The exchange behaviour of the spec's two-resolver scenario: resolver A
fails at transport level, every other resolver answers NXDOMAIN (rcode 3). -/
def exC3 (d : String) : ExchangeResult :=
  if d = ("A") then ExchangeResult.transportErr else ExchangeResult.response 3

/-- The relevant restriction of the miekg/dns `StringToType` table: each
record-type name maps to its wire code, anything absent to 0 (the Go map's
zero value). No name other than the four supported ones maps into
{1, 5, 15, 28}. -/
def dnsStringToType (msgType : String) : Nat :=
  if msgType = ("A") then 1
  else if msgType = ("NS") then 2
  else if msgType = ("CNAME") then 5
  else if msgType = ("SOA") then 6
  else if msgType = ("PTR") then 12
  else if msgType = ("MX") then 15
  else if msgType = ("TXT") then 16
  else if msgType = ("AAAA") then 28
  else if msgType = ("SRV") then 33
  else if msgType = ("ANY") then 255
  else 0

/-- dns.go lines 136-143: the query type `dnsLookup` actually issues — the
mapped type when it is A/AAAA/CNAME/MX, otherwise A (type 1). -/
def dnsLookupType (msgType : String) : Nat :=
  let t := dnsStringToType msgType
  if t = 1 || t = 28 || t = 5 || t = 15 then t else 1

/-! ### Pacing controller (src/unnamed/part_003, `calcSleepPeriod`)
Durations are `Int` nanoseconds. The two `rand` draws and the "now" instant
are parameters; the activity fetch result is an `Except` mirroring the
`(numQueries, err)` pair at the call site. -/

/-- The noise block of the configuration (config.go `Noise`). -/
structure NoiseCfg where
  minPeriod : Int
  maxPeriod : Int
  ipv4 : Bool
  ipv6 : Bool
deriving DecidableEq

/-- The pihole block of the configuration together with the mutable pacing
state the controller keeps on it (config.go `Pihole`): the refresh timestamp
(0 stands for Go's zero `time.Time`) and the stored sleep period. -/
structure PiholeCfg where
  enabled : Bool
  activityPeriod : Int
  refresh : Int
  noisePercentage : Int
  filter : String
  timestamp : Int
  sleepPeriod : Int
deriving DecidableEq

structure Config where
  noise : NoiseCfg
  pihole : PiholeCfg
deriving DecidableEq

/-- part_003 line 83: `time.Since(c.Pihole.Timestamp) > c.Pihole.Refresh.Duration()`. -/
def refreshDue (p : PiholeCfg) (now : Int) : Bool :=
  now - p.timestamp > p.refresh

/-- part_003 lines 98-103: cap the computed period to the configured bounds. -/
def clampPeriod (nc : NoiseCfg) (sp : Int) : Int :=
  if sp > nc.maxPeriod then nc.maxPeriod
  else if sp < nc.minPeriod then nc.minPeriod
  else sp

/-- part_003 lines 90-95: duration 0 on a fetch error, otherwise
`ActivityPeriod * NoisePercentage / numQueries` in Go `int64` arithmetic;
`none` is the runtime panic of a division by zero. -/
def rawSleepPeriod (p : PiholeCfg) (fetch : Except Unit Int) : Option Int :=
  match fetch with
  | Except.error _ => some 0
  | Except.ok numQueries =>
    if numQueries = 0 then none
    else some ((p.activityPeriod * p.noisePercentage).tdiv numQueries)

/-- part_003 lines 79-112, `calcSleepPeriod` before the jitter step: the
updated pihole state and the pre-jitter sleep period. In feedback mode a due
refresh recomputes and clamps the stored period and stamps the refresh time;
otherwise the stored period is reused unchanged. In static mode the period is
`rand.Int63n(max - min) + min`; `none` is `Int63n`'s panic on a non-positive
range. -/
def calcSleepBase (c : Config) (now : Int) (fetch : Except Unit Int) (randStatic : Int) :
    Option (PiholeCfg × Int) :=
  if c.pihole.enabled then
    if refreshDue c.pihole now then
      let p0 :=
        if c.pihole.timestamp = 0 then { c.pihole with timestamp := now } else c.pihole
      match rawSleepPeriod c.pihole fetch with
      | none => none
      | some raw =>
        let sp := clampPeriod c.noise raw
        some ({ p0 with sleepPeriod := sp, timestamp := now }, sp)
    else some (c.pihole, c.pihole.sleepPeriod)
  else
    if c.noise.maxPeriod - c.noise.minPeriod ≤ 0 then none
    else some (c.pihole, randStatic + c.noise.minPeriod)

/-- part_003 line 114: the exclusive bound `sleepPeriod.Milliseconds() / 10`
passed to `rand.Int63n` for the jitter draw. -/
def jitterBound (sleepPeriod : Int) : Int :=
  (sleepPeriod.tdiv 1000000).tdiv 10

/-- part_003 lines 78-117, `calcSleepPeriod`: the base computation followed by
the jitter step `+ rand.Int63n(sleepPeriod.Milliseconds()/10) * time.Millisecond`;
`none` is `Int63n`'s panic on a non-positive jitter bound. -/
def calcSleepPeriod (c : Config) (now : Int) (fetch : Except Unit Int)
    (randStatic randJitter : Int) : Option (PiholeCfg × Int) :=
  match calcSleepBase c now fetch randStatic with
  | none => none
  | some (p, sleepPeriod) =>
    if jitterBound sleepPeriod ≤ 0 then none
    else some (p, sleepPeriod + randJitter * 1000000)

/-! ### Pihole activity (src/pihole.go) -/

/-- pihole.go lines 159-172, `piholeFilterNoise`: an empty filter returns the
row count; otherwise rows whose client-host field (index 3) does not start
with the filter are counted. `none` is the panic of the `query[3]` access on
a row with fewer than four fields. -/
def piholeFilterNoiseGo (filter : String) : List (List String) → Nat → Option Nat
  | [], numQueries => some numQueries
  | query :: rest, numQueries =>
    match query[3]? with
    | none => none
    | some clientHost =>
      piholeFilterNoiseGo filter rest
        (if filter.toList.isPrefixOf clientHost.toList then numQueries else numQueries + 1)

def piholeFilterNoise (filter : String) (queries : List (List String)) : Option Nat :=
  if filter = ("") then some queries.length
  else piholeFilterNoiseGo filter queries 0

/-- Modelled from the spec: the repository-head `piholeFetchActivity` that
returns a `(count, error)` pair — the form part_003 line 90 calls and its
comment ("if no activity, an error will be returned") documents — is not
among the files under src/ (src/pihole.go carries an earlier single-value
revision). Per spec §4.4, a fetch failure or a non-positive observed count is
"no signal" and is reported as an error. `outcome` is `none` for any
HTTP/read/unmarshal failure and `some n` for a fetch that observed `n`
queries after filtering. -/
def piholeFetchActivity (outcome : Option Nat) : Except Unit Int :=
  match outcome with
  | none => Except.error ()
  | some numQueries =>
    if numQueries = 0 then Except.error () else Except.ok (numQueries : Int)

/-! ### Domain sampling and the noise loop
(src/unnamed/part_000 lines 159-181, src/unnamed/part_003 lines 50-70) -/

/-- The observable state of the sqlite corpus for one sampling call:
whether `db.Ping` succeeds, whether `dbCountRows` completes (its own
Ping/Scan failures are `log.Fatal`), whether the final row `Scan` succeeds,
and the rows of the Domains table. -/
structure NoiseDb where
  pingOk : Bool
  countOk : Bool
  scanOk : Bool
  rows : List String
deriving DecidableEq

/-- How one `dbGetRandomDomain` call ends: a domain, a returned error (the
caller logs and skips the tick), or process termination (`log.Fatal` or a
runtime panic). -/
inductive SampleOutcome where
  | ok (domain : String)
  | err
  | fatal
deriving DecidableEq

/-- part_000 lines 159-181, `dbGetRandomDomain`: a Ping failure is returned
as an error; `dbCountRows` terminates the process on its own failure;
`rand.Intn(numRows)` panics when `numRows ≤ 0` (the empty corpus); the row at
the drawn offset is returned, a failing Scan as an error. -/
def dbGetRandomDomain (db : NoiseDb) (offset : Nat) : SampleOutcome :=
  if db.pingOk = false then SampleOutcome.err
  else if db.countOk = false then SampleOutcome.fatal
  else if db.rows.length = 0 then SampleOutcome.fatal
  else
    match db.rows[offset]? with
    | some d => if db.scanOk then SampleOutcome.ok d else SampleOutcome.err
    | none => SampleOutcome.err

/-- What one iteration of the `makeNoise` loop does after sleeping. -/
inductive TickResult where
  | queries (qs : List (String × String))
  | skipped
  | halted
deriving DecidableEq

/-- part_003 lines 58-69: a sampling error is logged and the tick's queries
are skipped; otherwise an AAAA lookup is issued when IPv6 noise is enabled,
then an A lookup when IPv4 noise is enabled. `halted` propagates a fatal
sampling outcome. -/
def noiseTick (ipv6 ipv4 : Bool) (sample : SampleOutcome) : TickResult :=
  match sample with
  | SampleOutcome.fatal => TickResult.halted
  | SampleOutcome.err => TickResult.skipped
  | SampleOutcome.ok d =>
    TickResult.queries
      ((if ipv6 then [(d, ("AAAA"))] else []) ++ (if ipv4 then [(d, ("A"))] else []))

/-- The predicate C10 counts: the row's client-host field (index 3) does not
start with the filter string. -/
def rowCounted (filter : String) (query : List String) : Bool :=
  !(filter.toList.isPrefixOf ((query.getD 3 ("")).toList))

/-- Concrete pihole configuration used as a witness input (5 min activity
window, 10% noise percentage). -/
def pW6 : PiholeCfg :=
  { enabled := true, activityPeriod := 300000000000, refresh := 60000000000,
    noisePercentage := 10, filter := (""), timestamp := 0, sleepPeriod := 0 }

/-- Concrete static-mode configuration used as a witness input. -/
def cW1 : Config :=
  { noise := { minPeriod := 1000000000, maxPeriod := 15000000000, ipv4 := true, ipv6 := false },
    pihole := { enabled := false, activityPeriod := 300000000000, refresh := 60000000000,
                noisePercentage := 10, filter := (""), timestamp := 0, sleepPeriod := 0 } }

/-- Concrete feedback-mode configuration used as a witness input. -/
def cW2 : Config :=
  { noise := { minPeriod := 1000000000, maxPeriod := 15000000000, ipv4 := true, ipv6 := false },
    pihole := { enabled := true, activityPeriod := 300000000000, refresh := 60000000000,
                noisePercentage := 10, filter := ("noise.local"), timestamp := 0,
                sleepPeriod := 0 } }

/-- Concrete feedback-mode configuration with a fresh timestamp and a stored
5s period, used as a witness input. -/
def cW8 : Config :=
  { noise := { minPeriod := 1000000000, maxPeriod := 15000000000, ipv4 := true, ipv6 := false },
    pihole := { enabled := true, activityPeriod := 300000000000, refresh := 60000000000,
                noisePercentage := 10, filter := (""), timestamp := 100000000000,
                sleepPeriod := 5000000000 } }

/-! ### Theorems -/

/-- C7: endpoint formatting. A nameserver entry `{ip:"127.0.0.1"}` with no
port yields exactly `127.0.0.1:53`; an IPv6 entry `{ip:"::1", zone:"eth0"}`
yields `[::1%eth0]:53`; and for the address `fe80::1%eth1` with a separately
configured zone `eth0` the embedded zone wins, yielding `[fe80::1%eth1]:53`. -/
theorem c7_endpoint_formatting :
    dnsStatedClientConfig (some [⟨("127.0.0.1"), (""), 0⟩]) = Except.ok [("127.0.0.1:53")] ∧
    dnsStatedClientConfig (some [⟨("::1"), ("eth0"), 0⟩]) = Except.ok [("[::1%eth0]:53")] ∧
    dnsFormatIP ("fe80::1%eth1") ("eth0") = Except.ok ("[fe80::1%eth1]") ∧
    dnsStatedClientConfig (some [⟨("fe80::1%eth1"), ("eth0"), 0⟩]) =
      Except.ok [("[fe80::1%eth1]:53")] :=
  ⟨rfl, rfl, rfl, rfl⟩

/-- C3: the dispatcher advances past a resolver on a transport-level failure;
a completed exchange is terminal whatever its response code — a non-success
rcode such as NXDOMAIN (3) stops the scan at that resolver and is attributed
to it, independently of any later resolvers; and in the concrete two-resolver
scenario (A fails at transport level, B answers NXDOMAIN) the outcome is the
server error of B, not a transport failure. -/
theorem c3_failover_and_terminal_rcode (exchange : String → ExchangeResult) (d : String)
    (rest : List String) (rcode : Nat) :
    (exchange d = ExchangeResult.transportErr →
      dnsLookup exchange (d :: rest) = dnsLookup exchange rest) ∧
    (exchange d = ExchangeResult.response rcode →
      dnsLookup exchange (d :: rest) =
        (if rcode = 0 then QueryOutcome.answered d rcode else QueryOutcome.serverError d rcode)) ∧
    dnsLookup exC3 [("A"), ("B")] = QueryOutcome.serverError ("B") 3 := by
  refine ⟨?_, ?_, rfl⟩ <;> intro h <;> simp [dnsLookup, dnsQuery, h]

/-- C9: for every record-type string the issued query type is one of
A (1), CNAME (5), MX (15), AAAA (28), and any string other than the four
supported names is normalized to an A query. -/
theorem c9_lookup_type_normalization (msgType : String) :
    (dnsLookupType msgType = 1 ∨ dnsLookupType msgType = 5 ∨ dnsLookupType msgType = 15 ∨
      dnsLookupType msgType = 28) ∧
    (msgType ≠ ("A") ∧ msgType ≠ ("AAAA") ∧ msgType ≠ ("CNAME") ∧ msgType ≠ ("MX") →
      dnsLookupType msgType = 1) := by
  unfold dnsLookupType dnsStringToType
  split_ifs <;> simp_all

/-- C4 as stated is false: the fallback path returns without error even when
it yields zero endpoints. With no explicit nameserver list and a readable
/etc/resolv.conf whose single nameserver entry is invalid, `dnsServerConfig`
produces the empty resolver set instead of failing fatally. -/
theorem c4_counterexample :
    dnsServerConfig none (Except.ok ⟨[("nonsense")], ("53")⟩) = ServerSetup.ok [] ∧
    dnsServerConfig none (Except.ok ⟨[("nonsense")], ("53")⟩) ≠ ServerSetup.fatal :=
  ⟨rfl, by decide⟩

/-- C4 amended: an invalid entry of the explicit list is skipped non-fatally;
the explicit configuration errors exactly when the list is absent (`none`) or
no entry formats; startup is fatal exactly when the explicit configuration
errors and reading /etc/resolv.conf also fails; and when the explicit
configuration errors but /etc/resolv.conf is readable, the fallback's
endpoint set — possibly empty — is adopted without a fatal error. -/
theorem c4_fallback_and_fatal (ns : Option (List NameServer)) (e : NameServer)
    (l : List NameServer) (file : Except Unit DnsClientConfig) (conf : DnsClientConfig) :
    (dnsFormatIP e.ip e.zone = Except.error () →
      dnsStatedClientConfig (some (e :: l)) = dnsStatedClientConfig (some l)) ∧
    (dnsStatedClientConfig (some l) = Except.error () ↔
      ∀ entry ∈ l, dnsFormatIP entry.ip entry.zone = Except.error ()) ∧
    (dnsServerConfig ns file = ServerSetup.fatal ↔
      dnsStatedClientConfig ns = Except.error () ∧ file = Except.error ()) ∧
    (dnsStatedClientConfig ns = Except.error () →
      ∃ servers, dnsDefaultClientConfig (Except.ok conf) = Except.ok servers ∧
        dnsServerConfig ns (Except.ok conf) = ServerSetup.ok servers) := by
  constructor
  · intro h
    simp [dnsStatedClientConfig, h]
  constructor
  · simp only [dnsStatedClientConfig]
    constructor
    · intro h entry hm
      by_cases hempty : (l.filterMap (fun nsentry =>
          match dnsFormatIP nsentry.ip nsentry.zone with
          | Except.error _ => none
          | Except.ok ip =>
            some (ip ++ (":") ++ natRepr (if nsentry.port = 0 then 53 else nsentry.port)))).isEmpty
      · rw [List.isEmpty_iff] at hempty
        have := List.filterMap_eq_nil_iff.mp hempty entry hm
        revert this
        cases dnsFormatIP entry.ip entry.zone with
        | error u => cases u; intro; rfl
        | ok ip => simp
      · rw [if_neg hempty] at h
        cases h
    · intro h
      have : ∀ entry ∈ l, (fun nsentry =>
          match dnsFormatIP nsentry.ip nsentry.zone with
          | Except.error _ => none
          | Except.ok ip =>
            some (ip ++ (":") ++ natRepr (if nsentry.port = 0 then 53 else nsentry.port)))
            entry = none := by
        intro entry hm
        simp only
        rw [h entry hm]
      rw [List.filterMap_eq_nil_iff.mpr this]
      rfl
  constructor
  · cases hst : dnsStatedClientConfig ns with
    | ok servers => simp [dnsServerConfig, hst]
    | error u =>
      cases u
      cases file with
      | ok conf2 => simp [dnsServerConfig, hst, dnsDefaultClientConfig]
      | error u2 => cases u2; simp [dnsServerConfig, hst, dnsDefaultClientConfig]
  · intro hst
    exact ⟨_, rfl, by simp [dnsServerConfig, hst, dnsDefaultClientConfig]⟩

/-- C5: the code terminates the process on an empty corpus. With a reachable
database whose Domains table has zero rows, `dbGetRandomDomain` reaches
`rand.Intn(0)`, which panics (modelled `fatal`), and the loop halts instead
of logging and skipping the tick. The unreachable-corpus case, by contrast,
does return a non-fatal error that the loop turns into a skipped tick. -/
theorem c5_empty_corpus_is_fatal :
    dbGetRandomDomain ⟨true, true, true, []⟩ 0 = SampleOutcome.fatal ∧
    noiseTick true true (dbGetRandomDomain ⟨true, true, true, []⟩ 0) = TickResult.halted ∧
    dbGetRandomDomain ⟨false, true, true, [("example.com")]⟩ 0 = SampleOutcome.err ∧
    noiseTick true true (dbGetRandomDomain ⟨false, true, true, [("example.com")]⟩ 0) =
      TickResult.skipped := by
  decide

lemma piholeFilterNoiseGo_complete (filter : String) (queries : List (List String))
    (h : ∀ q ∈ queries, 4 ≤ q.length) (acc : Nat) :
    piholeFilterNoiseGo filter queries acc =
      some (acc + queries.countP (rowCounted filter)) := by
  induction queries generalizing acc with
  | nil => simp [piholeFilterNoiseGo]
  | cons q rest ih =>
    have hq : 3 < q.length := by have := h q (by simp); omega
    have h3 : q[3]? = some q[3] := List.getElem?_eq_getElem hq
    have hD : q.getD 3 ("") = q[3] := List.getD_eq_getElem q ("") hq
    have hrest : ∀ r ∈ rest, 4 ≤ r.length := fun r hr => h r (by simp [hr])
    rw [piholeFilterNoiseGo, h3]
    simp only [ih hrest]
    simp only [List.countP_cons, rowCounted, hD]
    cases hp : filter.toList.isPrefixOf ((q[3]).toList) with
    | true =>
      have hpro : filter.toList <+: (q[3]).toList := List.isPrefixOf_iff_prefix.mp hp
      simp [hpro]
    | false =>
      have hpro : ¬ filter.toList <+: (q[3]).toList := by
        rw [← List.isPrefixOf_iff_prefix, hp]; simp
      simp [hpro]
      omega

lemma piholeFilterNoiseGo_short (filter : String) (queries : List (List String))
    (h : ∃ q ∈ queries, q.length < 4) (acc : Nat) :
    piholeFilterNoiseGo filter queries acc = none := by
  induction queries generalizing acc with
  | nil => simp at h
  | cons q rest ih =>
    by_cases hq : q.length < 4
    · have h3 : q[3]? = none := List.getElem?_eq_none (by omega)
      rw [piholeFilterNoiseGo, h3]
    · have h3 : q[3]? = some q[3] := List.getElem?_eq_getElem (by omega)
      have hrest : ∃ r ∈ rest, r.length < 4 := by
        obtain ⟨r, hr, hlen⟩ := h
        rcases List.mem_cons.mp hr with rfl | hr2
        · exact absurd hlen hq
        · exact ⟨r, hr2, hlen⟩
      rw [piholeFilterNoiseGo, h3]
      exact ih hrest _

/-- C10: `piholeFilterNoise` with an empty filter returns exactly the number
of query rows; with a non-empty filter, when every row has at least four
fields, it returns the number of rows whose client-host field (index 3) does
not start with the filter; and a row with fewer than four fields makes the
`query[3]` access go out of bounds (the modelled panic `none`). -/
theorem c10_filter_noise_counts (filter : String) (queries : List (List String)) :
    piholeFilterNoise ("") queries = some queries.length ∧
    (filter ≠ ("") → (∀ q ∈ queries, 4 ≤ q.length) →
      piholeFilterNoise filter queries = some (queries.countP (rowCounted filter))) ∧
    (filter ≠ ("") → (∃ q ∈ queries, q.length < 4) →
      piholeFilterNoise filter queries = none) := by
  refine ⟨by simp [piholeFilterNoise], ?_, ?_⟩
  · intro hf hall
    rw [piholeFilterNoise, if_neg hf, piholeFilterNoiseGo_complete filter queries hall 0]
    simp
  · intro hf hshort
    rw [piholeFilterNoise, if_neg hf, piholeFilterNoiseGo_short filter queries hshort 0]

/-! ### Arithmetic helpers for the pacing theorems -/

lemma clampPeriod_mem (nc : NoiseCfg) (x : Int) (h : nc.minPeriod ≤ nc.maxPeriod) :
    nc.minPeriod ≤ clampPeriod nc x ∧ clampPeriod nc x ≤ nc.maxPeriod := by
  unfold clampPeriod
  split_ifs <;> omega

lemma clampPeriod_zero (nc : NoiseCfg) (h0 : 0 ≤ nc.minPeriod)
    (h : nc.minPeriod ≤ nc.maxPeriod) : clampPeriod nc 0 = nc.minPeriod := by
  unfold clampPeriod
  split_ifs <;> omega

/-- Truncating division is antitone in a positive divisor for a non-negative
dividend (the shape of the feedback formula's divisor). -/
lemma tdiv_antitone_den (k n m : Int) (hk : 0 ≤ k) (hn : 0 < n) (hnm : n ≤ m) :
    k.tdiv m ≤ k.tdiv n := by
  obtain ⟨a, rfl⟩ := Int.eq_ofNat_of_zero_le hk
  obtain ⟨b, rfl⟩ := Int.eq_ofNat_of_zero_le hn.le
  obtain ⟨c, rfl⟩ := Int.eq_ofNat_of_zero_le (hn.le.trans hnm)
  have hb : 0 < b := by exact_mod_cast hn
  have hbc : b ≤ c := by exact_mod_cast hnm
  show Int.ofNat (a / c) ≤ Int.ofNat (a / b)
  exact Int.ofNat_le.mpr (Nat.div_le_div_left hbc hb)

/-- Ten times the largest jitter `rand.Int63n(jitterBound sp)` can draw stays
below the sleep period itself: the added jitter is under 10% of it. -/
lemma jitter_mul_le (sp randJitter : Int) (hsp : 0 ≤ sp) (h0 : 0 ≤ randJitter)
    (h1 : randJitter < jitterBound sp) : 10 * (randJitter * 1000000) ≤ sp := by
  obtain ⟨s, rfl⟩ := Int.eq_ofNat_of_zero_le hsp
  obtain ⟨r, rfl⟩ := Int.eq_ofNat_of_zero_le h0
  have h1n : ((r : Int) < ((s / 1000000 / 10 : Nat) : Int)) := h1
  have hr : r < s / 1000000 / 10 := by exact_mod_cast h1n
  have hdd : s / 1000000 / 10 = s / 10000000 := Nat.div_div_eq_div_mul s 1000000 10
  have hr2 : r + 1 ≤ s / 10000000 := by omega
  have hr3 : (r + 1) * 10000000 ≤ s := (Nat.le_div_iff_mul_le (by norm_num)).mp hr2
  have hnat : 10 * (r * 1000000) ≤ s := by omega
  exact_mod_cast hnat

/-- C6: in feedback mode the raw (pre-clamp) delay
`ActivityPeriod * NoisePercentage / observedCount` is monotonically
non-increasing in the observed count over positive counts, the other inputs
held fixed. -/
theorem c6_raw_delay_antitone (p : PiholeCfg) (n m : Int)
    (ha : 0 ≤ p.activityPeriod) (hq : 0 ≤ p.noisePercentage) (hn : 0 < n) (hnm : n ≤ m) :
    ∃ dn dm, rawSleepPeriod p (Except.ok n) = some dn ∧
      rawSleepPeriod p (Except.ok m) = some dm ∧ dm ≤ dn := by
  have hm : 0 < m := lt_of_lt_of_le hn hnm
  refine ⟨_, _, by simp [rawSleepPeriod, hn.ne'], by simp [rawSleepPeriod, hm.ne'],
    tdiv_antitone_den _ n m (mul_nonneg ha hq) hn hnm⟩

/-- Witness for C6 at the default configuration (5 min activity window, 10%
noise percentage) with observed counts 2 and 5. -/
theorem c6_witness : ∃ dn dm, rawSleepPeriod pW6 (Except.ok 2) = some dn ∧
    rawSleepPeriod pW6 (Except.ok 5) = some dm ∧ dm ≤ dn :=
  c6_raw_delay_antitone pW6 2 5 (by decide) (by decide) (by decide) (by decide)

/-- C1: with `minPeriod ≤ maxPeriod` (and non-negative bounds), on every tick
that computes a fresh pre-jitter value — a feedback-mode refresh tick, whose
value is the clamped `SleepPeriod`, or a static-mode tick, whose value is the
random draw `Int63n(max-min) + min` — that value lies in
`[minPeriod, maxPeriod]`, and the value returned after the jitter draw is
added lies in `[minPeriod, maxPeriod * 1.1]` (stated as `10·ret ≤ 11·max`). -/
theorem c1_sleep_period_bounds (c : Config) (now : Int) (fetch : Except Unit Int)
    (randStatic randJitter : Int)
    (hmm : c.noise.minPeriod ≤ c.noise.maxPeriod)
    (hmin : 0 ≤ c.noise.minPeriod)
    (hmode : c.pihole.enabled = false ∨ refreshDue c.pihole now = true)
    (hstatic : c.pihole.enabled = false →
      0 ≤ randStatic ∧ randStatic < c.noise.maxPeriod - c.noise.minPeriod)
    (hfetch : ∀ n, fetch = Except.ok n → n ≠ 0)
    (hrj : 0 ≤ randJitter)
    (hrjb : ∀ p sp, calcSleepBase c now fetch randStatic = some (p, sp) →
      randJitter < jitterBound sp) :
    ∃ p sp, calcSleepBase c now fetch randStatic = some (p, sp) ∧
      c.noise.minPeriod ≤ sp ∧ sp ≤ c.noise.maxPeriod ∧
      calcSleepPeriod c now fetch randStatic randJitter =
        some (p, sp + randJitter * 1000000) ∧
      c.noise.minPeriod ≤ sp + randJitter * 1000000 ∧
      10 * (sp + randJitter * 1000000) ≤ 11 * c.noise.maxPeriod := by
  have main : ∃ p sp, calcSleepBase c now fetch randStatic = some (p, sp) ∧
      c.noise.minPeriod ≤ sp ∧ sp ≤ c.noise.maxPeriod := by
    by_cases he : c.pihole.enabled = true
    · have hdue : refreshDue c.pihole now = true := by
        rcases hmode with h | h
        · rw [he] at h; cases h
        · exact h
      obtain ⟨raw, hraw⟩ : ∃ raw, rawSleepPeriod c.pihole fetch = some raw := by
        cases hf : fetch with
        | error e => exact ⟨0, by simp [rawSleepPeriod]⟩
        | ok n =>
          exact ⟨(c.pihole.activityPeriod * c.pihole.noisePercentage).tdiv n,
            by simp [rawSleepPeriod, hf, hfetch n hf]⟩
      have hcl := clampPeriod_mem c.noise raw hmm
      refine ⟨{ c.pihole with sleepPeriod := clampPeriod c.noise raw, timestamp := now },
        clampPeriod c.noise raw, ?_, hcl.1, hcl.2⟩
      by_cases ht : c.pihole.timestamp = 0 <;>
        simp [calcSleepBase, he, hdue, hraw, ht]
    · have he' : c.pihole.enabled = false := by
        cases hb : c.pihole.enabled
        · rfl
        · exact absurd hb he
      obtain ⟨hr0, hrlt⟩ := hstatic he'
      refine ⟨c.pihole, randStatic + c.noise.minPeriod, ?_, by omega, by omega⟩
      have hrange : ¬ c.noise.maxPeriod - c.noise.minPeriod ≤ 0 := by omega
      simp [calcSleepBase, he', hrange]
  obtain ⟨p, sp, hbase, h1, h2⟩ := main
  have hjb := hrjb p sp hbase
  have hsp0 : 0 ≤ sp := le_trans hmin h1
  have hj10 := jitter_mul_le sp randJitter hsp0 hrj hjb
  have hjpos : ¬ jitterBound sp ≤ 0 := by omega
  have hrjmul : 0 ≤ randJitter * 1000000 := mul_nonneg hrj (by norm_num)
  refine ⟨p, sp, hbase, h1, h2, ?_, by omega, by omega⟩
  simp [calcSleepPeriod, hbase, hjpos]

/-- Witness for C1 in static mode: bounds 1s/15s, random draw 0.5s, jitter
draw 7 ms-units. -/
theorem c1_witness : ∃ p sp, calcSleepBase cW1 0 (Except.error ()) 500000000 = some (p, sp) ∧
    (1000000000 : Int) ≤ sp ∧ sp ≤ 15000000000 ∧
    calcSleepPeriod cW1 0 (Except.error ()) 500000000 7 = some (p, sp + 7 * 1000000) ∧
    (1000000000 : Int) ≤ sp + 7 * 1000000 ∧ 10 * (sp + 7 * 1000000) ≤ 11 * 15000000000 :=
  c1_sleep_period_bounds cW1 0 (Except.error ()) 500000000 7 (by decide) (by decide)
    (Or.inl rfl) (fun _ => ⟨by decide, by decide⟩) (fun n h => nomatch h) (by decide)
    (by
      intro p sp h
      rw [(by decide : calcSleepBase cW1 0 (Except.error ()) 500000000 =
        some (cW1.pihole, 1500000000))] at h
      rw [Option.some.injEq, Prod.mk.injEq] at h
      rw [← h.2]
      decide)

/-- C2: on a feedback-mode refresh tick, the modelled head `piholeFetchActivity`
turns a fetch failure or a zero observed count into an error, so the division
of the raw-delay formula is never executed with a zero divisor (the base
computation never hits the modelled division-by-zero panic), and on those
no-signal ticks the stored and returned delay is exactly the configured
minimum bound. -/
theorem c2_no_div_fault_min_fallback (c : Config) (now : Int) (randStatic : Int)
    (o : Option Nat)
    (he : c.pihole.enabled = true) (hdue : refreshDue c.pihole now = true)
    (hmin : 0 ≤ c.noise.minPeriod) (hmm : c.noise.minPeriod ≤ c.noise.maxPeriod) :
    (∀ n, piholeFetchActivity o = Except.ok n → n ≠ 0) ∧
    calcSleepBase c now (piholeFetchActivity o) randStatic ≠ none ∧
    ((o = none ∨ o = some 0) →
      piholeFetchActivity o = Except.error () ∧
      ∃ p, calcSleepBase c now (piholeFetchActivity o) randStatic =
          some (p, c.noise.minPeriod) ∧
        p.sleepPeriod = c.noise.minPeriod) := by
  have hok : ∀ n, piholeFetchActivity o = Except.ok n → n ≠ 0 := by
    intro n hn
    cases o with
    | none => cases hn
    | some k =>
      by_cases hk : k = 0
      · rw [piholeFetchActivity, hk] at hn
        simp at hn
      · rw [piholeFetchActivity, if_neg hk, Except.ok.injEq] at hn
        rw [← hn]
        exact_mod_cast hk
  refine ⟨hok, ?_, ?_⟩
  · obtain ⟨raw, hraw⟩ : ∃ raw, rawSleepPeriod c.pihole (piholeFetchActivity o) = some raw := by
      cases hf : piholeFetchActivity o with
      | error e => exact ⟨0, by simp [rawSleepPeriod]⟩
      | ok n =>
        exact ⟨(c.pihole.activityPeriod * c.pihole.noisePercentage).tdiv n,
          by simp [rawSleepPeriod, hf, hok n hf]⟩
    by_cases ht : c.pihole.timestamp = 0 <;>
      simp [calcSleepBase, he, hdue, hraw, ht]
  · intro ho
    have hfa : piholeFetchActivity o = Except.error () := by
      rcases ho with rfl | rfl
      · rfl
      · rfl
    have hraw : rawSleepPeriod c.pihole (piholeFetchActivity o) = some 0 := by
      rw [hfa]; rfl
    have hc0 : clampPeriod c.noise 0 = c.noise.minPeriod := clampPeriod_zero c.noise hmin hmm
    refine ⟨hfa, { c.pihole with sleepPeriod := c.noise.minPeriod, timestamp := now }, ?_, rfl⟩
    by_cases ht : c.pihole.timestamp = 0 <;>
      simp [calcSleepBase, he, hdue, hraw, ht, hc0]

/-- Witness for C2: a refresh tick (61s past the zero timestamp) whose
activity fetch failed outright. -/
theorem c2_witness : piholeFetchActivity none = Except.error () ∧
    ∃ p, calcSleepBase cW2 61000000000 (piholeFetchActivity none) 0 =
        some (p, (1000000000 : Int)) ∧
      p.sleepPeriod = 1000000000 :=
  (c2_no_div_fault_min_fallback cW2 61000000000 0 none rfl (by decide) (by decide)
    (by decide)).2.2 (Or.inl rfl)

/-- C8: in feedback mode, on a tick where the time since the last refresh does
not exceed the refresh interval, the pacing state (the stored `SleepPeriod`
and the refresh `Timestamp`, i.e. the whole pihole record) is returned
unchanged, and the returned delay is the previously stored one plus the fresh
jitter draw. -/
theorem c8_sticky_between_refreshes (c : Config) (now : Int) (fetch : Except Unit Int)
    (randStatic randJitter : Int)
    (he : c.pihole.enabled = true) (hdue : refreshDue c.pihole now = false)
    (hrj : 0 ≤ randJitter) (hrjb : randJitter < jitterBound c.pihole.sleepPeriod) :
    calcSleepBase c now fetch randStatic = some (c.pihole, c.pihole.sleepPeriod) ∧
    calcSleepPeriod c now fetch randStatic randJitter =
      some (c.pihole, c.pihole.sleepPeriod + randJitter * 1000000) := by
  have hbase : calcSleepBase c now fetch randStatic = some (c.pihole, c.pihole.sleepPeriod) := by
    simp [calcSleepBase, he, hdue]
  have hjpos : ¬ jitterBound c.pihole.sleepPeriod ≤ 0 := by omega
  exact ⟨hbase, by simp [calcSleepPeriod, hbase, hjpos]⟩

/-- Witness for C8: 20s after the last refresh with a 60s refresh interval,
the stored 5s period persists and only jitter is added. -/
theorem c8_witness :
    calcSleepBase cW8 120000000000 (Except.error ()) 0 =
      some (cW8.pihole, cW8.pihole.sleepPeriod) ∧
    calcSleepPeriod cW8 120000000000 (Except.error ()) 0 7 =
      some (cW8.pihole, cW8.pihole.sleepPeriod + 7 * 1000000) :=
  c8_sticky_between_refreshes cW8 120000000000 (Except.error ()) 0 7 rfl (by decide)
    (by decide) (by decide)

end DnsNoise
